import Mathlib

/-!
Verification development for the CJK paragraph-reflow engine of
ZhoConverterQt.

The embedding covers:
* `src/pdfium/ReflowHelper.hpp` — the standalone reflow implementation
  (UTF-8 decode/encode, line classifiers, dialog state, the per-line
  state machine `ReflowCjkParagraphs`);
* `src/pdfium/PdfiumHelper.hpp` — the older embedded copy of the same
  reflow loop (identical except for `IsHeadingLike` and its
  `HasOpenBracketNoClose` helper, embedded here with a `P` suffix);
* `src/pdfium/ReflowCommon.hpp` — the shared-helper variant of
  `IsTitleHeading` (embedded as `CommonIsTitleHeading`);
* `src/pdfium/PunctSets.hpp` — `IsStrongSentenceEnd`.

Byte strings are `List Nat` with entries below 256; UTF-32 strings are
`List Nat` of codepoints.  Each definition mirrors the corresponding C++
function; the doc comment records the source location.
-/

/-- Codepoint list of a Lean string literal; used to transcribe the C++
`U"..."` tables without manual codepoint transcription. -/
def String.cps (s : String) : List Nat := s.toList.map Char.toNat

namespace ZhoReflow

/-! ## Tables and constants (ReflowHelper.hpp, also present verbatim in
PdfiumHelper.hpp) -/

/-- Table `CJK_PUNCT_END` (ReflowHelper.hpp line 101, PdfiumHelper.hpp
line 554): the punctuation set used both for the empty-line rule and the
buffer-end flush rule. -/
def CJK_PUNCT_END : List Nat := "。！？；：…—”」’』）】》〗〕〉］｝.!?)".cps

/-- Table `DIALOG_OPENERS` (ReflowHelper.hpp line 104). -/
def DIALOG_OPENERS : List Nat := "“‘「『".cps

/-- Table `DIALOG_CLOSERS` (ReflowHelper.hpp line 105). -/
def DIALOG_CLOSERS : List Nat := "”’」』".cps

/-- Table `TITLE_WORDS` (ReflowHelper.hpp lines 108-111). -/
def TITLE_WORDS : List (List Nat) :=
  ["前言".cps, "序章".cps, "终章".cps, "尾声".cps, "后记".cps,
   "番外".cps, "尾聲".cps, "後記".cps, "楔子".cps]

/-- Table `CHAPTER_MARKERS` (ReflowHelper.hpp line 114). -/
def CHAPTER_MARKERS : List Nat := "章节部卷節回".cps

/-- Table `EXCLUDED_CHAPTER_MARKERS_PREFIX` (ReflowHelper.hpp line 124). -/
def EXCLUDED_CHAPTER_MARKERS_PREFIX : List Nat := "分合".cps

/-- Table `CHAPTER_END_BRACKETS` (ReflowHelper.hpp line 127). -/
def CHAPTER_END_BRACKETS : List Nat := "】》〗〕〉」』）］".cps

/-- Constant `SHORT_HEADING_MAX_LEN` (ReflowHelper.hpp line 129). -/
def SHORT_HEADING_MAX_LEN : Nat := 8

/-- Table `BRACKET_PAIRS` (ReflowHelper.hpp lines 135-159).  The ASCII
curly braces are written numerically (0x7B, 0x7D). -/
def BRACKET_PAIRS : List (Nat × Nat) :=
  [('（'.toNat, '）'.toNat), ('('.toNat, ')'.toNat),
   ('［'.toNat, '］'.toNat), ('['.toNat, ']'.toNat),
   ('｛'.toNat, '｝'.toNat), (0x7B, 0x7D),
   ('＜'.toNat, '＞'.toNat), ('<'.toNat, '>'.toNat),
   ('⟨'.toNat, '⟩'.toNat), ('〈'.toNat, '〉'.toNat),
   ('【'.toNat, '】'.toNat), ('《'.toNat, '》'.toNat),
   ('〔'.toNat, '〕'.toNat), ('〖'.toNat, '〗'.toNat)]

/-- Function `is_bracket_opener` (ReflowHelper.hpp lines 165-168). -/
def is_bracket_opener (ch : Nat) : Bool :=
  BRACKET_PAIRS.any (fun p => p.1 == ch)

/-- Function `is_bracket_closer` (ReflowHelper.hpp lines 170-173). -/
def is_bracket_closer (ch : Nat) : Bool :=
  BRACKET_PAIRS.any (fun p => p.2 == ch)

/-- Function `is_matching_bracket` (ReflowHelper.hpp lines 175-178). -/
def is_matching_bracket (o c : Nat) : Bool :=
  BRACKET_PAIRS.any (fun p => p.1 == o && p.2 == c)

/-- Table `METADATA_SEPARATORS` (ReflowHelper.hpp line 181): full-width
colon, ASCII colon, ideographic space U+3000 (written numerically). -/
def METADATA_SEPARATORS : List Nat := "：:".cps ++ [0x3000]

/-- Table `METADATA_KEYS` (ReflowHelper.hpp lines 184-235). -/
def METADATA_KEYS : List (List Nat) :=
  ["書名".cps, "书名".cps, "作者".cps, "譯者".cps, "译者".cps,
   "校訂".cps, "校订".cps, "出版社".cps, "出版時間".cps, "出版时间".cps,
   "出版日期".cps, "版權".cps, "版权".cps, "版權頁".cps, "版权页".cps,
   "版權信息".cps, "版权信息".cps, "責任編輯".cps, "责任编辑".cps,
   "編輯".cps, "编辑".cps, "責編".cps, "责编".cps, "定價".cps, "定价".cps,
   "簡介".cps, "简介".cps, "前言".cps, "序章".cps, "終章".cps, "终章".cps,
   "尾聲".cps, "尾声".cps, "後記".cps, "后记".cps, "品牌方".cps,
   "出品方".cps, "授權方".cps, "授权方".cps, "電子版權".cps, "数字版权".cps,
   "掃描".cps, "扫描".cps, "OCR".cps, "CIP".cps, "在版編目".cps,
   "在版编目".cps, "分類號".cps, "分类号".cps, "主題詞".cps, "主题词".cps,
   "類型".cps, "类型".cps, "系列".cps, "發行日".cps, "发行日".cps,
   "初版".cps, "ISBN".cps]

/-! ## Small utility helpers (ReflowHelper.hpp lines 237-442) -/

/-- Function `IsPageMarker` (ReflowHelper.hpp lines 245-251): prefix
`"=== "`, length at least 7, last three characters `'='`. -/
def IsPageMarker (s : List Nat) : Bool :=
  decide (7 ≤ s.length) && "=== ".cps.isPrefixOf s && "===".cps.isSuffixOf s

/-- Characters removed by `RStrip` (ReflowHelper.hpp line 256): space,
tab, carriage return. -/
def isRStripChar (c : Nat) : Bool := c == 32 || c == 9 || c == 13

/-- Function `RStrip` (ReflowHelper.hpp lines 254-260). -/
def RStrip (s : List Nat) : List Nat := (s.reverse.dropWhile isRStripChar).reverse

/-- Characters removed by `LStrip` (ReflowHelper.hpp line 264): space,
tab, ideographic space U+3000. -/
def isLStripChar (c : Nat) : Bool := c == 32 || c == 9 || c == 0x3000

/-- Function `LStrip` (ReflowHelper.hpp lines 262-268). -/
def LStrip (s : List Nat) : List Nat := s.dropWhile isLStripChar

/-- Function `Strip` (ReflowHelper.hpp lines 270-272). -/
def Strip (s : List Nat) : List Nat := RStrip (LStrip s)

/-- Function `IsCjk` (ReflowHelper.hpp lines 308-321): the three BMP CJK
ranges; the unsigned-subtraction trick in the source is an ordinary range
test. -/
def IsCjkCp (c : Nat) : Bool :=
  decide ((0x3400 ≤ c ∧ c ≤ 0x4DBF) ∨ (0x4E00 ≤ c ∧ c ≤ 0x9FFF) ∨
          (0xF900 ≤ c ∧ c ≤ 0xFAFF))

/-- Function `IsAsciiDigit` (ReflowHelper.hpp lines 323-325). -/
def IsAsciiDigitCp (c : Nat) : Bool := decide (0x30 ≤ c ∧ c ≤ 0x39)

/-- Function `IsAsciiLetter` (ReflowHelper.hpp lines 327-329). -/
def IsAsciiLetterCp (c : Nat) : Bool :=
  decide ((0x41 ≤ c ∧ c ≤ 0x5A) ∨ (0x61 ≤ c ∧ c ≤ 0x7A))

/-- Function `IsAsciiLetterOrDigit` (ReflowHelper.hpp lines 332-336). -/
def IsAsciiLetterOrDigitCp (c : Nat) : Bool :=
  IsAsciiDigitCp c || IsAsciiLetterCp c

/-- Function `IsFullwidthDigit` (ReflowHelper.hpp lines 339-341). -/
def IsFullwidthDigitCp (c : Nat) : Bool := decide (0xFF10 ≤ c ∧ c ≤ 0xFF19)

/-- Function `IsNeutralAsciiForMixed` (ReflowHelper.hpp lines 344-346):
space, hyphen, slash, colon, period. -/
def IsNeutralAsciiForMixed (c : Nat) : Bool :=
  c == 32 || c == 45 || c == 47 || c == 58 || c == 46

/-- Function `IsWhitespace` (ReflowHelper.hpp lines 348-375): ASCII
whitespace plus the listed Unicode spaces (U+2000..U+200A contiguous). -/
def IsWhitespaceCp (c : Nat) : Bool :=
  c == 32 || c == 9 || c == 10 || c == 13 || c == 12 || c == 11 ||
  c == 0xA0 || c == 0x1680 || decide (0x2000 ≤ c ∧ c ≤ 0x200A) ||
  c == 0x202F || c == 0x205F || c == 0x3000

/-- Function `IsAllAscii` (ReflowHelper.hpp lines 295-297). -/
def IsAllAscii (s : List Nat) : Bool := s.all (fun c => decide (c ≤ 0x7F))

/-- Loop body of `IsMixedCjkAscii` (ReflowHelper.hpp lines 384-412),
with the running `hasCjk` / `hasAscii` flags made explicit; the source
returns `true` as soon as both flags hold and `false` at a disqualifying
character or at the end of the string. -/
def IsMixedCjkAsciiGo : List Nat → Bool → Bool → Bool
  | [], _, _ => false
  | c :: rest, hasCjk, hasAscii =>
    if IsNeutralAsciiForMixed c then IsMixedCjkAsciiGo rest hasCjk hasAscii
    else if c ≤ 0x7F then
      if IsAsciiLetterOrDigitCp c then
        if hasCjk then true else IsMixedCjkAsciiGo rest hasCjk true
      else false
    else if IsFullwidthDigitCp c then
      if hasCjk then true else IsMixedCjkAsciiGo rest hasCjk true
    else if IsCjkCp c then
      if hasAscii then true else IsMixedCjkAsciiGo rest true hasAscii
    else false

/-- Function `IsMixedCjkAscii` (ReflowHelper.hpp lines 384-412). -/
def IsMixedCjkAscii (s : List Nat) : Bool := IsMixedCjkAsciiGo s false false

/-- Function `IsMostlyCjk` (ReflowHelper.hpp lines 414-442): counts CJK
codepoints against ASCII letters, treating whitespace and digits as
neutral; true iff some CJK is present and CJK count is at least the
ASCII-letter count. -/
def IsMostlyCjk (s : List Nat) : Bool :=
  let nonNeutral := s.filter (fun c =>
    !(IsWhitespaceCp c) && !(IsAsciiDigitCp c || IsFullwidthDigitCp c))
  let cjk := (nonNeutral.filter IsCjkCp).length
  let ascii := (nonNeutral.filter (fun c => !(IsCjkCp c) && IsAsciiLetterCp c)).length
  decide (0 < cjk) && decide (ascii ≤ cjk)

/-! ## Noise collapse (ReflowHelper.hpp lines 445-626) -/

/-- Candidate check inside `CollapseRepeatedToken` (ReflowHelper.hpp
lines 477-498) for one unit length: the length must divide evenly and
every chunk must equal the leading unit, i.e. the token is the unit
repeated `length / ulen` times. -/
def tokenIsRepeatOf (token : List Nat) (ulen : Nat) : Bool :=
  token.length % ulen == 0 &&
  token == (List.replicate (token.length / ulen) (token.take ulen)).flatten

/-- Function `CollapseRepeatedToken` (ReflowHelper.hpp lines 464-501):
tokens of length 4..200 made of a unit of length 4..10 repeated at least
3 times (unit length at most `length / 3`) collapse to one unit; the
smallest unit length wins, as in the source loop. -/
def CollapseRepeatedToken (token : List Nat) : List Nat :=
  if token.length < 4 || 200 < token.length then token
  else
    match ((List.range 7).map (fun k => k + 4)).find?
        (fun u => decide (u ≤ token.length / 3) && tokenIsRepeatOf token u) with
    | some u => token.take u
    | none => token

/-- Inner while loop of `CollapseRepeatedWordSequences` (ReflowHelper.hpp
lines 529-547): number of additional consecutive chunks equal to
`phrase`, starting at `pos`, stepping by `plen`.  `fuel` bounds the
recursion (the source loop is bounded by the list length). -/
def countRepeatsFrom (parts : List (List Nat)) (phrase : List (List Nat))
    (pos plen : Nat) : Nat → Nat
  | 0 => 0
  | fuel + 1 =>
    if decide (pos + plen ≤ parts.length) && (parts.drop pos).take plen == phrase then
      1 + countRepeatsFrom parts phrase (pos + plen) plen fuel
    else 0

/-- Repeat count for the phrase of length `plen` at `start`
(ReflowHelper.hpp lines 527-547): the phrase itself counts as 1. -/
def countRepeats (parts : List (List Nat)) (start plen : Nat) : Nat :=
  1 + countRepeatsFrom parts ((parts.drop start).take plen)
        (start + plen) plen parts.length

/-- Search loops of `CollapseRepeatedWordSequences` (ReflowHelper.hpp
lines 523-576): first `(start, phraseLen)` in lexicographic order with at
least 3 repeats, together with the repeat count. -/
def findCollapse (parts : List (List Nat)) : Option (Nat × Nat × Nat) :=
  (List.range parts.length).findSome? (fun start =>
    ((List.range 8).map (fun k => k + 1)).findSome? (fun plen =>
      if decide (start + plen ≤ parts.length) then
        let c := countRepeats parts start plen
        if decide (3 ≤ c) then some (start, plen, c) else none
      else none))

/-- Function `CollapseRepeatedWordSequences` (ReflowHelper.hpp lines
512-579): replace the first phrase run repeated at least 3 times by a
single copy, keeping prefix and tail. -/
def CollapseRepeatedWordSequences (parts : List (List Nat)) : List (List Nat) :=
  if parts.length < 3 then parts
  else
    match findCollapse parts with
    | none => parts
    | some (start, plen, count) =>
        parts.take start ++ (parts.drop start).take plen ++
          parts.drop (start + count * plen)

/-- Token split of `CollapseRepeatedSegments` (ReflowHelper.hpp lines
590-605): split on spaces and tabs, dropping empty tokens.  `cur` is the
reversed current token accumulator. -/
def splitTokensAux : List Nat → List Nat → List (List Nat)
  | [], cur => if cur.isEmpty then [] else [cur.reverse]
  | c :: rest, cur =>
    if c == 32 || c == 9 then
      if cur.isEmpty then splitTokensAux rest []
      else cur.reverse :: splitTokensAux rest []
    else splitTokensAux rest (c :: cur)

/-- Token list of a line, as split by `CollapseRepeatedSegments`. -/
def splitTokens (line : List Nat) : List (List Nat) := splitTokensAux line []

/-- Join loop of `CollapseRepeatedSegments` (ReflowHelper.hpp lines
614-623): tokens joined by a single ASCII space. -/
def joinWithSpace : List (List Nat) → List Nat
  | [] => []
  | [t] => t
  | t :: rest => t ++ 32 :: joinWithSpace rest

/-- Function `CollapseRepeatedSegments` (ReflowHelper.hpp lines 585-626):
split into tokens, phrase-level collapse, token-level collapse, join with
single spaces; empty lines and all-space/tab lines are returned as-is. -/
def CollapseRepeatedSegments (line : List Nat) : List Nat :=
  if line.isEmpty then line
  else
    let parts := splitTokens line
    if parts.isEmpty then line
    else joinWithSpace ((CollapseRepeatedWordSequences parts).map CollapseRepeatedToken)

/-! ## DialogState (ReflowHelper.hpp lines 628-687) -/

/-- Struct `DialogState` (ReflowHelper.hpp lines 630-687): six per-style
counters.  They are `Int` as in the C++ `int` fields; non-negativity is an
invariant proved below, not built into the type. -/
structure DialogState where
  double_quote : Int
  single_quote : Int
  corner : Int
  corner_bold : Int
  corner_top : Int
  corner_wide : Int
deriving Repr, DecidableEq

/-- Initial / reset state (`DialogState::reset`, ReflowHelper.hpp lines
638-645). -/
def DialogState.init : DialogState := ⟨0, 0, 0, 0, 0, 0⟩

/-- One character of `DialogState::update` (ReflowHelper.hpp lines
647-677): openers increment, closers decrement only when the counter is
positive.  The codepoints are `“ ”` (0x201C/0x201D), `‘ ’`
(0x2018/0x2019), `「 」` (0x300C/0x300D), `『 』` (0x300E/0x300F),
`﹁ ﹂` (0xFE41/0xFE42), `﹃ ﹄` (0xFE43/0xFE44). -/
def DialogState.updateChar (d : DialogState) (ch : Nat) : DialogState :=
  if ch == 0x201C then { d with double_quote := d.double_quote + 1 }
  else if ch == 0x201D then
    { d with double_quote := if 0 < d.double_quote then d.double_quote - 1 else d.double_quote }
  else if ch == 0x2018 then { d with single_quote := d.single_quote + 1 }
  else if ch == 0x2019 then
    { d with single_quote := if 0 < d.single_quote then d.single_quote - 1 else d.single_quote }
  else if ch == 0x300C then { d with corner := d.corner + 1 }
  else if ch == 0x300D then
    { d with corner := if 0 < d.corner then d.corner - 1 else d.corner }
  else if ch == 0x300E then { d with corner_bold := d.corner_bold + 1 }
  else if ch == 0x300F then
    { d with corner_bold := if 0 < d.corner_bold then d.corner_bold - 1 else d.corner_bold }
  else if ch == 0xFE41 then { d with corner_top := d.corner_top + 1 }
  else if ch == 0xFE42 then
    { d with corner_top := if 0 < d.corner_top then d.corner_top - 1 else d.corner_top }
  else if ch == 0xFE43 then { d with corner_wide := d.corner_wide + 1 }
  else if ch == 0xFE44 then
    { d with corner_wide := if 0 < d.corner_wide then d.corner_wide - 1 else d.corner_wide }
  else d

/-- Method `DialogState::update` (ReflowHelper.hpp lines 647-677). -/
def DialogState.update (d : DialogState) (s : List Nat) : DialogState :=
  s.foldl DialogState.updateChar d

/-- Method `DialogState::is_unclosed` (ReflowHelper.hpp lines 679-686). -/
def DialogState.is_unclosed (d : DialogState) : Bool :=
  decide (0 < d.double_quote) || decide (0 < d.single_quote) ||
  decide (0 < d.corner) || decide (0 < d.corner_bold) ||
  decide (0 < d.corner_top) || decide (0 < d.corner_wide)

/-! ## Line classifiers (ReflowHelper.hpp lines 689-971) -/

/-- Function `IsMetadataLine` (ReflowHelper.hpp lines 695-745). -/
def IsMetadataLine (line : List Nat) : Bool :=
  let s := Strip line
  if s.isEmpty then false
  else if 30 < s.length then false
  else
    match s.findIdx? (fun c => METADATA_SEPARATORS.contains c) with
    | none => false
    | some i =>
      if i == 0 || 10 < i then false
      else
        let key := Strip (s.take i)
        if key.isEmpty then false
        else if !(METADATA_KEYS.contains key) then false
        else
          match (s.drop (i + 1)).dropWhile (fun c => c == 32 || c == 9 || c == 0x3000) with
          | [] => false
          | c :: _ => !(DIALOG_OPENERS.contains c)

/-- Function `IsTitleHeading` (ReflowHelper.hpp lines 758-809).  The
`番外.{0,15}` step 1b of the source is unreachable because `番外` is
already in `TITLE_WORDS` and step 1 returns true for it; the chapter scan
looks for `第` within the first 11 characters and then for a chapter
marker within the next 6, not followed by `分`/`合`, with a tail of at
most 20 characters. -/
def IsTitleHeading (s : List Nat) : Bool :=
  if s.length == 0 || 50 < s.length then false
  else if TITLE_WORDS.any (fun w => w.isPrefixOf s) then true
  else
    match (s.take 11).findIdx? (fun c => c == '第'.toNat) with
    | none => false
    | some di =>
      ((List.range 6).map (fun k => di + 1 + k)).any (fun j =>
        decide (j < s.length) &&
        CHAPTER_MARKERS.contains (s.getD j 0) &&
        !(decide (j + 1 < s.length) &&
          EXCLUDED_CHAPTER_MARKERS_PREFIX.contains (s.getD (j + 1) 0)) &&
        decide (s.length - j - 1 ≤ 20))

/-- Function `IsDialogStart` (ReflowHelper.hpp lines 811-815). -/
def IsDialogStart (line : List Nat) : Bool :=
  match LStrip line with
  | [] => false
  | c :: _ => DIALOG_OPENERS.contains c

/-- Loop of `HasOpenBracketNoClose` (ReflowHelper.hpp lines 817-828):
scans left to right, remembering whether an opener was seen and failing
at the first closer. -/
def HasOpenBracketNoCloseGo : List Nat → Bool → Bool
  | [], hasOpen => hasOpen
  | c :: rest, hasOpen =>
    if is_bracket_opener c then HasOpenBracketNoCloseGo rest true
    else if is_bracket_closer c then false
    else HasOpenBracketNoCloseGo rest hasOpen

/-- Function `HasOpenBracketNoClose` (ReflowHelper.hpp lines 817-828). -/
def HasOpenBracketNoClose (s : List Nat) : Bool := HasOpenBracketNoCloseGo s false

/-- Function `IsHeadingLike` (ReflowHelper.hpp lines 830-910): the
standalone-file variant, including the bracket-wrapped heading shortcut. -/
def IsHeadingLike (raw : List Nat) : Bool :=
  let s := Strip raw
  match s.getLast? with
  | none => false
  | some last =>
    if IsPageMarker s then false
    else if CJK_PUNCT_END.contains last then false
    else if HasOpenBracketNoClose s then false
    else if decide (2 ≤ s.length) && is_matching_bracket (s.headD 0) last &&
        (let inner := Strip ((s.drop 1).take (s.length - 2))
         !inner.isEmpty && IsMostlyCjk inner) then true
    else
      let all_ascii := IsAllAscii s
      let max_len := if all_ascii || IsMixedCjkAscii s
        then SHORT_HEADING_MAX_LEN * 2 else SHORT_HEADING_MAX_LEN
      if max_len < s.length then false
      else
        let hasNonAscii := s.any (fun c => decide (0x7F < c))
        let hasLetter := s.any IsAsciiLetterCp
        let allAsciiDigits := s.all IsAsciiDigitCp
        if allAsciiDigits then true
        else if hasNonAscii && !(last == '，'.toNat) && !(last == ','.toNat) then true
        else if all_ascii && hasLetter then true
        else false

/-- Function `IsIndented` (ReflowHelper.hpp lines 913-924): at least two
leading space/tab/ideographic-space characters. -/
def IsIndented (raw : List Nat) : Bool :=
  match raw with
  | c1 :: c2 :: _ => isLStripChar c1 && isLStripChar c2
  | _ => false

/-- Function `IsChapterEnding` (ReflowHelper.hpp lines 927-937). -/
def IsChapterEnding (s : List Nat) : Bool :=
  if 15 < s.length then false
  else
    match (s.reverse.dropWhile (fun c => CHAPTER_END_BRACKETS.contains c)).reverse.getLast? with
    | none => false
    | some last => CHAPTER_MARKERS.contains last

/-- Whitespace set of `IsBoxDrawingLine` (ReflowHelper.hpp lines 940-943). -/
def isBoxWs (c : Nat) : Bool :=
  c == 32 || c == 9 || c == 10 || c == 13 || c == 0x3000

/-- Significant characters allowed by `IsBoxDrawingLine` (ReflowHelper.hpp
lines 961-965): box drawing U+2500..U+257F, dashes `=`, `_`, `~`, `～`,
stars `*`, `＊`, `★`, `☆`. -/
def isBoxGlyph (c : Nat) : Bool :=
  decide (0x2500 ≤ c ∧ c ≤ 0x257F) ||
  c == 45 || c == 61 || c == 95 || c == 126 || c == 0xFF5E ||
  c == 42 || c == 0xFF0A || c == 0x2605 || c == 0x2606

/-- Function `IsBoxDrawingLine` (ReflowHelper.hpp lines 939-971): at
least three significant characters, all from the divider glyph set. -/
def IsBoxDrawingLine (s : List Nat) : Bool :=
  let sig := s.filter (fun c => !(isBoxWs c))
  !sig.isEmpty && sig.all isBoxGlyph && decide (3 ≤ sig.length)

/-! ## PdfiumHelper.hpp variants

The embedded reflow copy in PdfiumHelper.hpp (lines 1300-1558) is
textually identical to the ReflowHelper.hpp loop, and all of its helpers
match except `HasOpenBracketNoClose` (PdfiumHelper.hpp lines 1158-1162,
which uses the flat `OPEN_BRACKETS`/`CLOSE_BRACKETS` sets) and
`IsHeadingLike` (PdfiumHelper.hpp lines 1164-1235, which lacks the
bracket-wrapped shortcut).  They are embedded with a `P` suffix. -/

/-- Table `OPEN_BRACKETS` (PdfiumHelper.hpp line 561). -/
def OPEN_BRACKETS_P : List Nat := "（([【《〈［｛".cps

/-- Table `CLOSE_BRACKETS` (PdfiumHelper.hpp line 562). -/
def CLOSE_BRACKETS_P : List Nat := "）)]】》〉］｝".cps

/-- Function `HasOpenBracketNoClose` (PdfiumHelper.hpp lines 1158-1162):
some opener present and no closer present. -/
def HasOpenBracketNoCloseP (s : List Nat) : Bool :=
  if !(s.any (fun c => OPEN_BRACKETS_P.contains c)) then false
  else if s.any (fun c => CLOSE_BRACKETS_P.contains c) then false
  else true

/-- Function `IsHeadingLike` (PdfiumHelper.hpp lines 1164-1235): as the
ReflowHelper.hpp variant but with the flat-set bracket check and without
the bracket-wrapped heading shortcut. -/
def IsHeadingLikeP (raw : List Nat) : Bool :=
  let s := Strip raw
  match s.getLast? with
  | none => false
  | some last =>
    if IsPageMarker s then false
    else if CJK_PUNCT_END.contains last then false
    else if HasOpenBracketNoCloseP s then false
    else
      let all_ascii := IsAllAscii s
      let max_len := if all_ascii || IsMixedCjkAscii s
        then SHORT_HEADING_MAX_LEN * 2 else SHORT_HEADING_MAX_LEN
      if max_len < s.length then false
      else
        let hasNonAscii := s.any (fun c => decide (0x7F < c))
        let hasLetter := s.any IsAsciiLetterCp
        let allAsciiDigits := s.all IsAsciiDigitCp
        if allAsciiDigits then true
        else if hasNonAscii && !(last == '，'.toNat) && !(last == ','.toNat) then true
        else if all_ascii && hasLetter then true
        else false

/-! ## ReflowCommon.hpp variant of IsTitleHeading -/

/-- Table `CN_NUM_1_TO_10` (ReflowCommon.hpp line 160). -/
def CN_NUM_1_TO_10 : List Nat := "一二三四五六七八九十".cps

/-- Table `EXCLUDED_CHAPTER_MARKERS_PREFIX` of ReflowCommon.hpp line 157:
unlike the ReflowHelper.hpp table it also excludes `的`. -/
def EXCLUDED_CHAPTER_MARKERS_PREFIX3 : List Nat := "分合的".cps

/-- Function `IsTitleHeading` (ReflowCommon.hpp lines 619-684): the
shared-helper variant with the comma rejection, the `番外` length cap
inside the fixed-word loop, the `第…` chapter scan without a tail cap,
and the `(卷|章)[一二三四五六七八九十]` third pattern. -/
def CommonIsTitleHeading (s : List Nat) : Bool :=
  if s.length == 0 || 50 < s.length then false
  else if s.contains ','.toNat || s.contains '，'.toNat then false
  else
    match TITLE_WORDS.find? (fun w => w.isPrefixOf s) with
    | some w => if w == "番外".cps then decide (s.length ≤ 2 + 15) else true
    | none =>
      let diHit :=
        match (s.take 11).findIdx? (fun c => c == '第'.toNat) with
        | none => false
        | some di =>
          ((List.range 6).map (fun k => di + 1 + k)).any (fun j =>
            decide (j < s.length) &&
            CHAPTER_MARKERS.contains (s.getD j 0) &&
            !(decide (j + 1 < s.length) &&
              EXCLUDED_CHAPTER_MARKERS_PREFIX3.contains (s.getD (j + 1) 0)))
      if diHit then true
      else
        decide (2 ≤ s.length) &&
        (s.headD 0 == '卷'.toNat || s.headD 0 == '章'.toNat) &&
        CN_NUM_1_TO_10.contains (s.getD 1 0) &&
        (s.length == 2 || decide (s.length - 2 ≤ 20))

/-! ## PunctSets.hpp -/

/-- Function `IsStrongSentenceEnd` (PunctSets.hpp lines 57-69): the
Tier-1 set `。！？!?`. -/
def IsStrongSentenceEnd (c : Nat) : Bool :=
  c == '。'.toNat || c == '！'.toNat || c == '？'.toNat ||
  c == '!'.toNat || c == '?'.toNat

/-! ## Reflow state machine (ReflowHelper.hpp lines 975-1233)

The loop body is parameterized by the weak-heading predicate `hl`
because that is the only point where the ReflowHelper.hpp copy and the
PdfiumHelper.hpp copy of `ReflowCjkParagraphs` differ (they call their
respective `IsHeadingLike`); everything else below is shared verbatim by
the two files. -/

/-- State of the reflow loop: emitted `segments`, the `buffer` paragraph
under construction, and the dialog counters (ReflowHelper.hpp lines
1025-1027). -/
structure ReflowState where
  segments : List (List Nat)
  buffer : List Nat
  dialog : DialogState
deriving Repr, DecidableEq

/-- Lambda `flush_buffer` (ReflowHelper.hpp lines 1029-1035): a
non-empty buffer is appended to the segments and cleared together with
the dialog state. -/
def flushBuffer (st : ReflowState) : ReflowState :=
  if st.buffer.isEmpty then st
  else { segments := st.segments ++ [st.buffer], buffer := [],
         dialog := DialogState.init }

/-- Condition of the colon-plus-dialog continuation rule
(ReflowHelper.hpp lines 1170-1180): buffer ends with a colon and the
line begins, after indentation, with a dialog opener. -/
def colonDialogCase (buffer stripped : List Nat) : Bool :=
  (buffer.getLastD 0 == '：'.toNat || buffer.getLastD 0 == ':'.toNat) &&
  (match LStrip stripped with
   | [] => false
   | c :: _ => DIALOG_OPENERS.contains c)

/-- Rules 5-9 of the loop body (ReflowHelper.hpp lines 1169-1210): colon
continuation, buffer-ends-with-punctuation flush (gated by
`is_unclosed`), indentation flush, chapter-ending flush, default merge.
Reached only with a non-empty buffer. -/
def processTail2 (st : ReflowState) (raw stripped : List Nat) : ReflowState :=
  if colonDialogCase st.buffer stripped then
    { st with buffer := st.buffer ++ stripped,
              dialog := st.dialog.update stripped }
  else if !st.buffer.isEmpty && CJK_PUNCT_END.contains (st.buffer.getLastD 0) &&
      !st.dialog.is_unclosed then
    let st1 := flushBuffer st
    { st1 with buffer := stripped, dialog := st1.dialog.update stripped }
  else if IsIndented raw then
    let st1 := flushBuffer st
    { st1 with buffer := stripped, dialog := st1.dialog.update stripped }
  else if IsChapterEnding st.buffer then
    let st1 := flushBuffer st
    { st1 with buffer := stripped, dialog := st1.dialog.update stripped }
  else
    { st with buffer := st.buffer ++ stripped,
              dialog := st.dialog.update stripped }

/-- Rule 4 and the comma/dialog-start decision (ReflowHelper.hpp lines
1126-1167): an empty buffer is seeded with the line; otherwise a buffer
whose right-trimmed text ends comma-like falls through to the merge
rules, and a dialog-opening line flushes the old paragraph and restarts
with the line. -/
def processTail (st : ReflowState) (raw stripped : List Nat) : ReflowState :=
  let current_is_dialog_start := IsDialogStart stripped
  if st.buffer.isEmpty then
    { st with buffer := stripped,
              dialog := DialogState.update DialogState.init stripped }
  else
    let lastc := (RStrip st.buffer).getLastD 0
    if lastc == '，'.toNat || lastc == ','.toNat || lastc == '、'.toNat then
      processTail2 st raw stripped
    else if current_is_dialog_start then
      let st1 := flushBuffer st
      { st1 with buffer := stripped,
                 dialog := DialogState.update DialogState.init stripped }
    else processTail2 st raw stripped

/-- Loop body of `ReflowCjkParagraphs` (ReflowHelper.hpp lines
1037-1210), parameterized by the weak-heading predicate `hl`
(`IsHeadingLike` in ReflowHelper.hpp, its variant in PdfiumHelper.hpp). -/
def processLineG (hl : List Nat → Bool) (hdr : Bool) (st : ReflowState)
    (raw : List Nat) : ReflowState :=
  let stripped := CollapseRepeatedSegments (RStrip raw)
  let stripped_left := LStrip stripped
  if stripped.isEmpty then
    if !hdr && !st.buffer.isEmpty &&
        !(CJK_PUNCT_END.contains (st.buffer.getLastD 0)) then st
    else flushBuffer st
  else if IsBoxDrawingLine stripped_left then
    let st1 := flushBuffer st
    flushBuffer { st1 with segments := st1.segments ++ [stripped_left] }
  else if IsPageMarker stripped then
    let st1 := flushBuffer st
    { st1 with segments := st1.segments ++ [stripped] }
  else if IsTitleHeading stripped_left then
    let st1 := flushBuffer st
    { st1 with segments := st1.segments ++ [stripped] }
  else if IsMetadataLine stripped_left then
    let st1 := flushBuffer st
    { st1 with segments := st1.segments ++ [stripped] }
  else if hl stripped then
    if !st.buffer.isEmpty then
      match (RStrip st.buffer).getLast? with
      | some last =>
        if last == '，'.toNat || last == ','.toNat || last == '、'.toNat then
          processTail st raw stripped
        else
          let st1 := flushBuffer st
          { st1 with segments := st1.segments ++ [stripped] }
      | none => { st with segments := st.segments ++ [stripped] }
    else { st with segments := st.segments ++ [stripped] }
  else processTail st raw stripped

/-- Loop body with `IsHeadingLike` of ReflowHelper.hpp. -/
def processLine (hdr : Bool) (st : ReflowState) (raw : List Nat) : ReflowState :=
  processLineG IsHeadingLike hdr st raw

/-- Loop body with `IsHeadingLike` of PdfiumHelper.hpp. -/
def processLineP (hdr : Bool) (st : ReflowState) (raw : List Nat) : ReflowState :=
  processLineG IsHeadingLikeP hdr st raw

/-- Segment list produced by the loop over all lines, including the
final flush of a non-empty buffer (ReflowHelper.hpp lines 1214-1216). -/
def reflowLinesG (hl : List Nat → Bool) (hdr : Bool)
    (lines : List (List Nat)) : List (List Nat) :=
  let fin := lines.foldl (processLineG hl hdr) ⟨[], [], DialogState.init⟩
  if fin.buffer.isEmpty then fin.segments else fin.segments ++ [fin.buffer]

/-- Segment list of the ReflowHelper.hpp implementation. -/
def reflowLines (hdr : Bool) (lines : List (List Nat)) : List (List Nat) :=
  reflowLinesG IsHeadingLike hdr lines

/-! ## UTF-8 decode / encode and the outer pipeline -/

/-- Function `Utf8ToU32` (ReflowHelper.hpp lines 33-71, identical in
ReflowCommon.hpp lines 73-111 and PdfiumHelper.hpp lines 486-524).
Input is a byte list; masks (`& 0x1F` etc.) become `% 32` and shifted
ors become arithmetic because the or-ed ranges are disjoint.  A lead
byte whose trailing bytes are missing, or a byte that fits no lead
pattern, produces U+FFFD and consumes one byte; trailing bytes are
masked with `% 64` without being validated, exactly as in the source. -/
def Utf8ToU32 : List Nat → List Nat
  | [] => []
  | [c] =>
    if c < 0x80 then [c] else [0xFFFD]
  | [c, b1] =>
    if c < 0x80 then c :: Utf8ToU32 [b1]
    else if c / 32 = 6 then [(c % 32) * 64 + b1 % 64]
    else 0xFFFD :: Utf8ToU32 [b1]
  | [c, b1, b2] =>
    if c < 0x80 then c :: Utf8ToU32 [b1, b2]
    else if c / 32 = 6 then ((c % 32) * 64 + b1 % 64) :: Utf8ToU32 [b2]
    else if c / 16 = 14 then [(c % 16) * 4096 + (b1 % 64) * 64 + b2 % 64]
    else 0xFFFD :: Utf8ToU32 [b1, b2]
  | c :: b1 :: b2 :: b3 :: rest =>
    if c < 0x80 then c :: Utf8ToU32 (b1 :: b2 :: b3 :: rest)
    else if c / 32 = 6 then
      ((c % 32) * 64 + b1 % 64) :: Utf8ToU32 (b2 :: b3 :: rest)
    else if c / 16 = 14 then
      ((c % 16) * 4096 + (b1 % 64) * 64 + b2 % 64) :: Utf8ToU32 (b3 :: rest)
    else if c / 8 = 30 then
      ((c % 8) * 0x40000 + (b1 % 64) * 4096 + (b2 % 64) * 64 + b3 % 64) ::
        Utf8ToU32 rest
    else 0xFFFD :: Utf8ToU32 (b1 :: b2 :: b3 :: rest)

/-- Function `U32ToUtf8` (ReflowHelper.hpp lines 73-96): standard 1-4
byte encoding; valid for the codepoints the decoder can produce (below
0x200000). -/
def U32ToUtf8 : List Nat → List Nat
  | [] => []
  | c :: rest =>
    (if c < 0x80 then [c]
     else if c < 0x800 then [0xC0 + c / 64, 0x80 + c % 64]
     else if c < 0x10000 then
       [0xE0 + c / 4096, 0x80 + (c / 64) % 64, 0x80 + c % 64]
     else
       [0xF0 + c / 0x40000, 0x80 + (c / 4096) % 64, 0x80 + (c / 64) % 64,
        0x80 + c % 64]) ++ U32ToUtf8 rest

/-- Line-ending normalization of `ReflowCjkParagraphs` (ReflowHelper.hpp
lines 991-1008): CRLF and lone CR become LF. -/
def normalizeNewlines : List Nat → List Nat
  | [] => []
  | 13 :: 10 :: rest => 10 :: normalizeNewlines rest
  | 13 :: rest => 10 :: normalizeNewlines rest
  | c :: rest => c :: normalizeNewlines rest

/-- Line split of `ReflowCjkParagraphs` (ReflowHelper.hpp lines
1011-1023): split on LF; the final piece is always emitted, so the
result has one more piece than there are newlines. -/
def splitLinesBytes : List Nat → List (List Nat)
  | [] => [[]]
  | 10 :: rest => [] :: splitLinesBytes rest
  | c :: rest =>
    match splitLinesBytes rest with
    | l :: ls => (c :: l) :: ls
    | [] => [[c]]

/-- Join loop of `ReflowCjkParagraphs` (ReflowHelper.hpp lines
1219-1230): one LF between segments when `compact`, two otherwise. -/
def joinSegments (compact : Bool) : List (List Nat) → List Nat
  | [] => []
  | [s] => s
  | s :: rest =>
    s ++ (if compact then [10] else [10, 10]) ++ joinSegments compact rest

/-- Function `ReflowCjkParagraphs` (ReflowHelper.hpp lines 975-1233),
parameterized by the weak-heading predicate.  The all-space early return
(lines 979-988) checks only the four ASCII bytes space/tab/CR/LF. -/
def ReflowCjkParagraphsG (hl : List Nat → Bool) (utf8Text : List Nat)
    (hdr compact : Bool) : List Nat :=
  if utf8Text.all (fun c => c == 32 || c == 9 || c == 13 || c == 10) then utf8Text
  else
    let lines32 := (splitLinesBytes (normalizeNewlines utf8Text)).map Utf8ToU32
    U32ToUtf8 (joinSegments compact (reflowLinesG hl hdr lines32))

/-- Function `ReflowCjkParagraphs` of ReflowHelper.hpp. -/
def ReflowCjkParagraphs (utf8Text : List Nat) (hdr compact : Bool) : List Nat :=
  ReflowCjkParagraphsG IsHeadingLike utf8Text hdr compact

/-- Function `ReflowCjkParagraphs` of PdfiumHelper.hpp (lines 1300-1558):
the same loop with PdfiumHelper's `IsHeadingLike`. -/
def ReflowCjkParagraphsP (utf8Text : List Nat) (hdr compact : Bool) : List Nat :=
  ReflowCjkParagraphsG IsHeadingLikeP utf8Text hdr compact

/-! ## Specification-side definitions -/

/-- Continuation byte of standard UTF-8: `0x80..0xBF`. -/
def isUtf8Cont (b : Nat) : Bool := decide (0x80 ≤ b ∧ b ≤ 0xBF)

/-- Validity of a byte string as UTF-8.  This definition follows the
spec's words (RFC 3629 well-formedness: lead-byte ranges, required
continuation bytes, no overlong forms, no surrogates, at most U+10FFFF);
it is used only to state which byte sequences the spec calls invalid. -/
def SpecValidUtf8 : List Nat → Bool
  | [] => true
  | b :: rest =>
    if b ≤ 0x7F then SpecValidUtf8 rest
    else if 0xC2 ≤ b ∧ b ≤ 0xDF then
      match rest with
      | b1 :: r => isUtf8Cont b1 && SpecValidUtf8 r
      | [] => false
    else if b = 0xE0 then
      match rest with
      | b1 :: b2 :: r =>
        decide (0xA0 ≤ b1 ∧ b1 ≤ 0xBF) && isUtf8Cont b2 && SpecValidUtf8 r
      | _ => false
    else if (0xE1 ≤ b ∧ b ≤ 0xEC) ∨ b = 0xEE ∨ b = 0xEF then
      match rest with
      | b1 :: b2 :: r => isUtf8Cont b1 && isUtf8Cont b2 && SpecValidUtf8 r
      | _ => false
    else if b = 0xED then
      match rest with
      | b1 :: b2 :: r =>
        decide (0x80 ≤ b1 ∧ b1 ≤ 0x9F) && isUtf8Cont b2 && SpecValidUtf8 r
      | _ => false
    else if b = 0xF0 then
      match rest with
      | b1 :: b2 :: b3 :: r =>
        decide (0x90 ≤ b1 ∧ b1 ≤ 0xBF) && isUtf8Cont b2 && isUtf8Cont b3 &&
          SpecValidUtf8 r
      | _ => false
    else if 0xF1 ≤ b ∧ b ≤ 0xF3 then
      match rest with
      | b1 :: b2 :: b3 :: r =>
        isUtf8Cont b1 && isUtf8Cont b2 && isUtf8Cont b3 && SpecValidUtf8 r
      | _ => false
    else if b = 0xF4 then
      match rest with
      | b1 :: b2 :: b3 :: r =>
        decide (0x80 ≤ b1 ∧ b1 ≤ 0x8F) && isUtf8Cont b2 && isUtf8Cont b3 &&
          SpecValidUtf8 r
      | _ => false
    else false

/-- Non-negativity of all six dialog counters, the invariant claimed for
`DialogState`. -/
def DialogState.Nonneg (d : DialogState) : Prop :=
  0 ≤ d.double_quote ∧ 0 ≤ d.single_quote ∧ 0 ≤ d.corner ∧
  0 ≤ d.corner_bold ∧ 0 ≤ d.corner_top ∧ 0 ≤ d.corner_wide

/-!
# Theorems
-/

/-! ## C1 -/

/-- C1 is false on the code: starting from the empty state, the line
`他对大家说道“今天天气真的` leaves the dialog state unclosed (the `“`
is never closed), and the next line `「你好」` is a prose line for the
engine (not empty, not a divider, page marker, title heading or metadata
line), yet processing it flushes the buffered paragraph into a segment:
the dialogue-opener rule is not gated by `is_unclosed`. -/
theorem C1_counterexample :
    (let st1 := processLine false ⟨[], [], DialogState.init⟩
        "他对大家说道“今天天气真的".cps
     let l2 := CollapseRepeatedSegments (RStrip "「你好」".cps)
     st1.dialog.is_unclosed = true ∧
     st1.buffer = "他对大家说道“今天天气真的".cps ∧
     st1.segments = [] ∧
     l2.isEmpty = false ∧
     IsBoxDrawingLine (LStrip l2) = false ∧
     IsPageMarker l2 = false ∧
     IsTitleHeading (LStrip l2) = false ∧
     IsMetadataLine (LStrip l2) = false ∧
     (processLine false st1 "「你好」".cps).segments = [st1.buffer]) := by
  decide

/-- C1 amended: `is_unclosed` gates only the sentence-end flush rule.
While the dialog state is unclosed, a line that reaches the merge rules
is merged into the buffer (the buffer-ends-with-punctuation rule never
fires) provided the line is not indented and the buffer is not
chapter-ending-like; but, as the counterexample shows, dialogue-opener
lines (and likewise indented and heading-like lines) can still split the
paragraph while a quote is open. -/
theorem C1_amended_unclosed_gates_punct_flush (st : ReflowState)
    (raw stripped : List Nat)
    (hun : st.dialog.is_unclosed = true)
    (hind : IsIndented raw = false)
    (hch : IsChapterEnding st.buffer = false) :
    (processTail2 st raw stripped).segments = st.segments ∧
    (processTail2 st raw stripped).buffer = st.buffer ++ stripped := by
  unfold processTail2
  split_ifs with h1 h2 h3 h4 <;> simp_all

/-- Witness for the amended C1: a buffer with an open `“` merges the
next plain line instead of flushing. -/
theorem C1_amended_witness :
    (processTail2 ⟨[], "他说“一".cps, DialogState.update DialogState.init "他说“一".cps⟩
        "继续说".cps "继续说".cps).segments = [] ∧
    (processTail2 ⟨[], "他说“一".cps, DialogState.update DialogState.init "他说“一".cps⟩
        "继续说".cps "继续说".cps).buffer = "他说“一".cps ++ "继续说".cps :=
  C1_amended_unclosed_gates_punct_flush
    ⟨[], "他说“一".cps, DialogState.update DialogState.init "他说“一".cps⟩
    "继续说".cps "继续说".cps (by decide) (by decide) (by decide)

/-! ## C2 -/

/-- C2 is false on the code: the empty-line rule tests the buffer's last
character against the full `CJK_PUNCT_END` set, not the Tier-1 strong
sentence ends.  With page headers disabled and the buffer ending in `；`
(which is in `CJK_PUNCT_END` but is not a strong sentence end), an empty
line flushes the buffer instead of being skipped. -/
theorem C2_counterexample :
    (let st1 := processLine false ⟨[], [], DialogState.init⟩ "他说了一句话；".cps
     st1.buffer = "他说了一句话；".cps ∧
     st1.segments = [] ∧
     IsStrongSentenceEnd (st1.buffer.getLastD 0) = false ∧
     (processLine false st1 []).segments = [st1.buffer] ∧
     (processLine false st1 []).buffer = []) := by
  decide

/-- C2 amended: for a line that is empty after stripping, with page
headers disabled and a non-empty buffer the line is skipped unless the
buffer's last character (not its last non-whitespace character) is in
`CJK_PUNCT_END` (not merely the Tier-1 strong sentence ends), in which
case the buffer is flushed as one segment; with page headers enabled, or
with an empty buffer, the empty line always leaves an empty buffer (the
flush is a no-op when the buffer is empty). -/
theorem C2_amended_empty_line (st : ReflowState) (raw : List Nat) (hdr : Bool)
    (hempty : CollapseRepeatedSegments (RStrip raw) = []) :
    (hdr = false → st.buffer ≠ [] →
      CJK_PUNCT_END.contains (st.buffer.getLastD 0) = false →
      processLine hdr st raw = st) ∧
    (st.buffer ≠ [] →
      (hdr = true ∨ CJK_PUNCT_END.contains (st.buffer.getLastD 0) = true) →
      processLine hdr st raw = ⟨st.segments ++ [st.buffer], [], DialogState.init⟩) ∧
    (st.buffer = [] → processLine hdr st raw = st) := by
  unfold processLine processLineG flushBuffer
  simp only [hempty, List.isEmpty_nil, if_true]
  refine ⟨?_, ?_, ?_⟩
  · intro h1 h2 h3
    subst h1
    simp_all [List.isEmpty_iff]
  · intro h1 h2
    rcases h2 with h2 | h2 <;> subst_eqs <;> simp_all [List.isEmpty_iff]
  · intro h1
    simp_all

/-- Witness for the amended C2: a buffer ending in `。` is flushed as
one segment by an empty line, for both flag values. -/
theorem C2_amended_witness :
    processLine false ⟨[], "你好。".cps, DialogState.init⟩ [] =
      ⟨["你好。".cps], [], DialogState.init⟩ ∧
    processLine true ⟨[], "你好。".cps, DialogState.init⟩ [] =
      ⟨["你好。".cps], [], DialogState.init⟩ :=
  ⟨(C2_amended_empty_line ⟨[], "你好。".cps, DialogState.init⟩ [] false
      (by decide)).2.1 (by decide) (Or.inr (by decide)),
   (C2_amended_empty_line ⟨[], "你好。".cps, DialogState.init⟩ [] true
      (by decide)).2.1 (by decide) (Or.inl rfl)⟩

/-! ## C3 -/

/-- C3 is false on the code: the line `今天他们去了公园散步。` ends with
the Tier-1 strong end `。`, is processed from the empty state with
nothing open and is caught by none of the earlier rules, yet after
processing it the buffer holds the line and no segment has been emitted:
the engine does not flush on the current line's ending (it flushes later,
when the *buffer* ends with `CJK_PUNCT_END` as the next line arrives). -/
theorem C3_counterexample :
    (let line := "今天他们去了公园散步。".cps
     IsStrongSentenceEnd (line.getLastD 0) = true ∧
     DialogState.init.is_unclosed = false ∧
     CollapseRepeatedSegments (RStrip line) = line ∧
     IsBoxDrawingLine (LStrip line) = false ∧
     IsPageMarker line = false ∧
     IsTitleHeading (LStrip line) = false ∧
     IsMetadataLine (LStrip line) = false ∧
     IsHeadingLike line = false ∧
     (processLine false ⟨[], [], DialogState.init⟩ line).buffer = line ∧
     (processLine false ⟨[], [], DialogState.init⟩ line).segments = []) := by
  decide

/-- C3 amended: the flush is keyed on the buffer, not the current line.
When the merge rules are reached with a non-empty buffer whose last
character is in `CJK_PUNCT_END`, no dialog open, and the colon-dialog
continuation not applying, the buffer is flushed as a segment and the
current line seeds the new buffer. -/
theorem C3_amended_flush_on_buffer_end (st : ReflowState) (raw stripped : List Nat)
    (hbuf : st.buffer ≠ [])
    (hend : CJK_PUNCT_END.contains (st.buffer.getLastD 0) = true)
    (hun : st.dialog.is_unclosed = false)
    (hcolon : colonDialogCase st.buffer stripped = false) :
    processTail2 st raw stripped =
      ⟨st.segments ++ [st.buffer], stripped,
       DialogState.update DialogState.init stripped⟩ := by
  unfold processTail2 flushBuffer
  simp_all [List.isEmpty_iff]

/-- Witness for the amended C3 at a buffer ending in `。`. -/
theorem C3_amended_witness :
    processTail2 ⟨[], "你好。".cps, DialogState.init⟩ "再见".cps "再见".cps =
      ⟨["你好。".cps], "再见".cps,
       DialogState.update DialogState.init "再见".cps⟩ :=
  C3_amended_flush_on_buffer_end ⟨[], "你好。".cps, DialogState.init⟩
    "再见".cps "再见".cps (by decide) (by decide) (by decide) (by decide)

/-! ## C4 -/

/-- C4 is false on the code: `"　\n"` (ideographic space U+3000 followed
by a newline) consists only of whitespace codepoints, but the
all-whitespace early return checks only the four ASCII bytes
space/tab/CR/LF, so the input is reflowed and the trailing newline is
dropped for every flag combination. -/
theorem C4_counterexample :
    ((Utf8ToU32 [0xE3, 0x80, 0x80, 0x0A]).all IsWhitespaceCp = true) ∧
    ReflowCjkParagraphs [0xE3, 0x80, 0x80, 0x0A] false false ≠ [0xE3, 0x80, 0x80, 0x0A] ∧
    ReflowCjkParagraphs [0xE3, 0x80, 0x80, 0x0A] false true ≠ [0xE3, 0x80, 0x80, 0x0A] ∧
    ReflowCjkParagraphs [0xE3, 0x80, 0x80, 0x0A] true false ≠ [0xE3, 0x80, 0x80, 0x0A] ∧
    ReflowCjkParagraphs [0xE3, 0x80, 0x80, 0x0A] true true ≠ [0xE3, 0x80, 0x80, 0x0A] := by
  decide

/-- C4 amended: inputs consisting only of the ASCII whitespace bytes
space, tab, CR and LF (including the empty input) are returned unchanged
for all flag values. -/
theorem C4_amended_ascii_whitespace_identity (bs : List Nat) (hdr compact : Bool)
    (h : bs.all (fun c => c == 32 || c == 9 || c == 13 || c == 10) = true) :
    ReflowCjkParagraphs bs hdr compact = bs := by
  unfold ReflowCjkParagraphs ReflowCjkParagraphsG
  simp [h]

/-- Witness for the amended C4 at the spec's own example `"   \n\t "`. -/
theorem C4_amended_witness :
    ReflowCjkParagraphs "   \n\t ".cps false false = "   \n\t ".cps :=
  C4_amended_ascii_whitespace_identity "   \n\t ".cps false false (by decide)

/-! ## C5 -/

/-- C5 is false on the code: `C2 41` is not valid UTF-8 (`41` is not a
continuation byte), yet the decoder masks the `A` into the lead byte and
produces U+0081, not U+FFFD. -/
theorem C5_counterexample :
    SpecValidUtf8 [0xC2, 0x41] = false ∧
    Utf8ToU32 [0xC2, 0x41] = [0x81] ∧ (0x81 : Nat) ≠ 0xFFFD := by
  decide

/-- C5 amended: decoding is total (it is a function on all byte lists);
ASCII input decodes to itself; a byte that fits no lead pattern
(a continuation byte 0x80..0xBF in lead position, or a byte at least
0xF8) is replaced by U+FFFD and one byte is consumed.  Bytes after a
valid lead byte are, however, masked into the codepoint without being
validated, which is what the counterexample exhibits. -/
theorem Utf8ToU32_ascii_cons (c : Nat) (rest : List Nat) (h : c < 0x80) :
    Utf8ToU32 (c :: rest) = c :: Utf8ToU32 rest := by
  match rest with
  | [] => simp [Utf8ToU32, h]
  | [b1] => simp [Utf8ToU32, h]
  | [b1, b2] => simp [Utf8ToU32, h]
  | b1 :: b2 :: b3 :: r => simp [Utf8ToU32, h]

theorem Utf8ToU32_invalid_lead (b : Nat) (rest : List Nat)
    (hb1 : ¬(b < 0x80)) (hb2 : ¬(b / 32 = 6)) (hb3 : ¬(b / 16 = 14))
    (hb4 : ¬(b / 8 = 30)) :
    Utf8ToU32 (b :: rest) = 0xFFFD :: Utf8ToU32 rest := by
  match rest with
  | [] => simp [Utf8ToU32, hb1]
  | [b1] => simp [Utf8ToU32, hb1, hb2]
  | [b1, b2] => simp [Utf8ToU32, hb1, hb2, hb3]
  | b1 :: b2 :: b3 :: r => simp [Utf8ToU32, hb1, hb2, hb3, hb4]

theorem C5_amended_decode_total :
    (∀ bs : List Nat, bs.all (fun c => decide (c < 0x80)) = true →
      Utf8ToU32 bs = bs) ∧
    (∀ (b : Nat) (rest : List Nat), 0x80 ≤ b → b ≤ 0xBF →
      Utf8ToU32 (b :: rest) = 0xFFFD :: Utf8ToU32 rest) ∧
    (∀ (b : Nat) (rest : List Nat), 0xF8 ≤ b →
      Utf8ToU32 (b :: rest) = 0xFFFD :: Utf8ToU32 rest) := by
  refine ⟨?_, ?_, ?_⟩
  · intro bs h
    induction bs with
    | nil => rfl
    | cons c rest ih =>
      simp only [List.all_cons, Bool.and_eq_true, decide_eq_true_eq] at h
      rw [Utf8ToU32_ascii_cons c rest h.1, ih h.2]
  · intro b rest h1 h2
    exact Utf8ToU32_invalid_lead b rest (by omega) (by omega) (by omega) (by omega)
  · intro b rest h1
    exact Utf8ToU32_invalid_lead b rest (by omega) (by omega) (by omega) (by omega)

/-- Witness for the amended C5: ASCII identity on `"ab"`, and U+FFFD for
the stray continuation byte 0x80 and for the invalid lead 0xFF. -/
theorem C5_amended_witness :
    Utf8ToU32 [0x61, 0x62] = [0x61, 0x62] ∧
    Utf8ToU32 [0x80, 0x61] = [0xFFFD, 0x61] ∧
    Utf8ToU32 [0xFF] = [0xFFFD] := by
  refine ⟨C5_amended_decode_total.1 [0x61, 0x62] (by decide), ?_, ?_⟩
  · rw [C5_amended_decode_total.2.1 0x80 [0x61] (by omega) (by omega)]
    rw [C5_amended_decode_total.1 [0x61] (by decide)]
  · rw [C5_amended_decode_total.2.2 0xFF [] (by omega)]
    rfl

/-! ## C8 -/

theorem updateChar_nonneg {d : DialogState} (h : d.Nonneg) (ch : Nat) :
    (d.updateChar ch).Nonneg := by
  obtain ⟨a, b, c, e, f, g⟩ := d
  obtain ⟨h1, h2, h3, h4, h5, h6⟩ := h
  (try dsimp only at h1 h2 h3 h4 h5 h6)
  unfold DialogState.updateChar
  by_cases c1 : (ch == 0x201C) = true
  · rw [if_pos c1]; exact ⟨by dsimp only; omega, h2, h3, h4, h5, h6⟩
  rw [if_neg c1]
  by_cases c2 : (ch == 0x201D) = true
  · rw [if_pos c2]
    exact ⟨by dsimp only; split_ifs <;> omega, h2, h3, h4, h5, h6⟩
  rw [if_neg c2]
  by_cases c3 : (ch == 0x2018) = true
  · rw [if_pos c3]; exact ⟨h1, by dsimp only; omega, h3, h4, h5, h6⟩
  rw [if_neg c3]
  by_cases c4 : (ch == 0x2019) = true
  · rw [if_pos c4]
    exact ⟨h1, by dsimp only; split_ifs <;> omega, h3, h4, h5, h6⟩
  rw [if_neg c4]
  by_cases c5 : (ch == 0x300C) = true
  · rw [if_pos c5]; exact ⟨h1, h2, by dsimp only; omega, h4, h5, h6⟩
  rw [if_neg c5]
  by_cases c6 : (ch == 0x300D) = true
  · rw [if_pos c6]
    exact ⟨h1, h2, by dsimp only; split_ifs <;> omega, h4, h5, h6⟩
  rw [if_neg c6]
  by_cases c7 : (ch == 0x300E) = true
  · rw [if_pos c7]; exact ⟨h1, h2, h3, by dsimp only; omega, h5, h6⟩
  rw [if_neg c7]
  by_cases c8 : (ch == 0x300F) = true
  · rw [if_pos c8]
    exact ⟨h1, h2, h3, by dsimp only; split_ifs <;> omega, h5, h6⟩
  rw [if_neg c8]
  by_cases c9 : (ch == 0xFE41) = true
  · rw [if_pos c9]; exact ⟨h1, h2, h3, h4, by dsimp only; omega, h6⟩
  rw [if_neg c9]
  by_cases c10 : (ch == 0xFE42) = true
  · rw [if_pos c10]
    exact ⟨h1, h2, h3, h4, by dsimp only; split_ifs <;> omega, h6⟩
  rw [if_neg c10]
  by_cases c11 : (ch == 0xFE43) = true
  · rw [if_pos c11]; exact ⟨h1, h2, h3, h4, h5, by dsimp only; omega⟩
  rw [if_neg c11]
  by_cases c12 : (ch == 0xFE44) = true
  · rw [if_pos c12]
    exact ⟨h1, h2, h3, h4, h5, by dsimp only; split_ifs <;> omega⟩
  rw [if_neg c12]
  exact ⟨h1, h2, h3, h4, h5, h6⟩

theorem update_nonneg {d : DialogState} (h : d.Nonneg) (s : List Nat) :
    (d.update s).Nonneg := by
  induction s generalizing d with
  | nil => exact h
  | cons c rest ih =>
    rw [DialogState.update, List.foldl_cons]
    exact ih (updateChar_nonneg h c)

theorem foldl_update_nonneg (ss : List (List Nat)) {d : DialogState}
    (h : d.Nonneg) : (ss.foldl DialogState.update d).Nonneg := by
  induction ss generalizing d with
  | nil => exact h
  | cons s rest ih => exact ih (update_nonneg h s)

theorem is_unclosed_iff_ne_init {d : DialogState} (h : d.Nonneg) :
    d.is_unclosed = true ↔ d ≠ DialogState.init := by
  obtain ⟨a, b, c, e, f, g⟩ := d
  obtain ⟨h1, h2, h3, h4, h5, h6⟩ := h
  dsimp only at h1 h2 h3 h4 h5 h6
  simp only [DialogState.is_unclosed, DialogState.init, ne_eq,
    DialogState.mk.injEq, Bool.or_eq_true, decide_eq_true_eq, not_and]
  omega

/-- C8: starting from the all-zero state, any sequence of
`DialogState.update` calls keeps all six counters non-negative and
`is_unclosed` is then true exactly when the state is not all-zero (i.e.
some counter is positive); literally, `is_unclosed` is the disjunction
of the six positivity tests; a closer seen while its counter is zero
leaves the state unchanged; and flushing a non-empty buffer resets the
buffer and all six counters together. -/
theorem C8_dialog_state (ss : List (List Nat)) (d : DialogState)
    (st : ReflowState) :
    ((ss.foldl DialogState.update DialogState.init).Nonneg ∧
     ((ss.foldl DialogState.update DialogState.init).is_unclosed = true ↔
       ss.foldl DialogState.update DialogState.init ≠ DialogState.init)) ∧
    (d.is_unclosed = true ↔
      (0 < d.double_quote ∨ 0 < d.single_quote ∨ 0 < d.corner ∨
       0 < d.corner_bold ∨ 0 < d.corner_top ∨ 0 < d.corner_wide)) ∧
    ((d.double_quote = 0 → d.updateChar 0x201D = d) ∧
     (d.single_quote = 0 → d.updateChar 0x2019 = d) ∧
     (d.corner = 0 → d.updateChar 0x300D = d) ∧
     (d.corner_bold = 0 → d.updateChar 0x300F = d) ∧
     (d.corner_top = 0 → d.updateChar 0xFE42 = d) ∧
     (d.corner_wide = 0 → d.updateChar 0xFE44 = d)) ∧
    (st.buffer ≠ [] →
      flushBuffer st = ⟨st.segments ++ [st.buffer], [], DialogState.init⟩) := by
  have hinit : DialogState.init.Nonneg := by
    refine ⟨?_, ?_, ?_, ?_, ?_, ?_⟩ <;> simp [DialogState.init]
  have hnn := foldl_update_nonneg ss hinit
  refine ⟨⟨hnn, is_unclosed_iff_ne_init hnn⟩, ?_, ?_, ?_⟩
  · obtain ⟨a, b, c, e, f, g⟩ := d
    simp only [DialogState.is_unclosed, Bool.or_eq_true, decide_eq_true_eq]
    omega
  · obtain ⟨a, b, c, e, f, g⟩ := d
    refine ⟨?_, ?_, ?_, ?_, ?_, ?_⟩ <;> intro hz <;>
      simp_all [DialogState.updateChar]
  · intro hb
    unfold flushBuffer
    simp [List.isEmpty_iff, hb]

/-- Witness for C8: a stray-closer string never drives the corner
counter negative (the final state is the all-zero state), and flushing a
one-byte buffer resets buffer and counters. -/
theorem C8_witness :
    (["」你好」".cps].foldl DialogState.update DialogState.init).Nonneg ∧
    flushBuffer ⟨[], [97], DialogState.init⟩ = ⟨[[97]], [], DialogState.init⟩ :=
  ⟨(C8_dialog_state ["」你好」".cps] DialogState.init
      ⟨[], [97], DialogState.init⟩).1.1,
   (C8_dialog_state [] DialogState.init ⟨[], [97], DialogState.init⟩).2.2.2
     (by decide)⟩

/-! ## C7 -/

theorem any_of_findIdx?_eq_some {p : Nat → Bool} {l : List Nat} {i : Nat}
    (h : l.findIdx? p = some i) : l.any p = true := by
  by_contra hc
  rw [List.findIdx?_eq_none_iff.mpr] at h
  · exact Option.noConfusion h
  · intro x hx
    rcases Bool.eq_false_or_eq_true (p x) with ht | hf
    · exact absurd (List.any_eq_true.mpr ⟨x, hx, ht⟩) hc
    · exact hf

/-- C7 is false on the code: the ReflowCommon.hpp `IsTitleHeading`
accepts `卷一`, a line that neither starts with a fixed title word nor
contains the character `第` at all, through its third pattern
`(卷|章)[一二三四五六七八九十]`, which the claim's disjunction omits. -/
theorem C7_counterexample :
    CommonIsTitleHeading "卷一".cps = true ∧
    TITLE_WORDS.any (fun w => w.isPrefixOf "卷一".cps) = false ∧
    "卷一".cps.contains '第'.toNat = false := by
  decide

/-- C7 amended: `IsTitleHeading` returns true on `第十章 终章` (both the
ReflowCommon.hpp and the ReflowHelper.hpp variant), and the
ReflowCommon.hpp variant returns true only if the line is 1..50
codepoints long, contains no ASCII or full-width comma, and either
starts with a fixed title word, or contains `第` among its first 11
characters, or starts with `卷` or `章` followed by a Chinese numeral
一..十. -/
theorem C7_amended_title_heading :
    CommonIsTitleHeading "第十章 终章".cps = true ∧
    IsTitleHeading "第十章 终章".cps = true ∧
    ∀ s : List Nat, CommonIsTitleHeading s = true →
      1 ≤ s.length ∧ s.length ≤ 50 ∧
      s.contains ','.toNat = false ∧ s.contains '，'.toNat = false ∧
      (TITLE_WORDS.any (fun w => w.isPrefixOf s) = true ∨
       (s.take 11).any (fun c => c == '第'.toNat) = true ∨
       ((s.headD 0 == '卷'.toNat || s.headD 0 == '章'.toNat) = true ∧
        CN_NUM_1_TO_10.contains (s.getD 1 0) = true)) := by
  refine ⟨by decide, by decide, ?_⟩
  intro s h
  unfold CommonIsTitleHeading at h
  split_ifs at h with hlen hcomma
  simp only [Bool.or_eq_true, beq_iff_eq, decide_eq_true_eq, not_or,
    Bool.not_eq_true] at hlen hcomma
  obtain ⟨hlen0, hlen50⟩ := hlen
  obtain ⟨hc1, hc2⟩ := hcomma
  refine ⟨by omega, by omega, hc1, hc2, ?_⟩
  cases hfind : TITLE_WORDS.find? (fun w => w.isPrefixOf s) with
  | some w =>
    have hpw := List.find?_some hfind
    exact Or.inl (List.any_eq_true.mpr
      ⟨w, List.mem_of_find?_eq_some hfind, hpw⟩)
  | none =>
    rw [hfind] at h
    cases hidx : (s.take 11).findIdx? (fun c => c == '第'.toNat) with
    | some di =>
      exact Or.inr (Or.inl (any_of_findIdx?_eq_some hidx))
    | none =>
      rw [hidx] at h
      have h' : (decide (2 ≤ s.length) &&
          (s.headD 0 == '卷'.toNat || s.headD 0 == '章'.toNat) &&
          CN_NUM_1_TO_10.contains (s.getD 1 0) &&
          (s.length == 2 || decide (s.length - 2 ≤ 20))) = true := by
        simpa using h
      simp only [Bool.and_eq_true] at h'
      exact Or.inr (Or.inr ⟨h'.1.1.2, h'.1.2⟩)

/-- Witness for the amended C7 at `卷二`, discharging the implication at
a concrete accepted line. -/
theorem C7_amended_witness :
    1 ≤ "卷二".cps.length ∧ "卷二".cps.length ≤ 50 ∧
    "卷二".cps.contains ','.toNat = false ∧
    "卷二".cps.contains '，'.toNat = false ∧
    (TITLE_WORDS.any (fun w => w.isPrefixOf "卷二".cps) = true ∨
     ("卷二".cps.take 11).any (fun c => c == '第'.toNat) = true ∨
     (("卷二".cps.headD 0 == '卷'.toNat || "卷二".cps.headD 0 == '章'.toNat) = true ∧
      CN_NUM_1_TO_10.contains ("卷二".cps.getD 1 0) = true)) :=
  C7_amended_title_heading.2.2 "卷二".cps (by decide)

/-! ## C6 -/

theorem mem_flushBuffer {x : List Nat} (st : ReflowState)
    (h : x ∈ st.segments) : x ∈ (flushBuffer st).segments := by
  unfold flushBuffer
  split_ifs
  · exact h
  · exact List.mem_append_left _ h

theorem mem_processTail2 {x : List Nat} (st : ReflowState)
    (raw stripped : List Nat) (h : x ∈ st.segments) :
    x ∈ (processTail2 st raw stripped).segments := by
  unfold processTail2
  split_ifs <;> first | exact h | exact mem_flushBuffer st h

theorem mem_processTail {x : List Nat} (st : ReflowState)
    (raw stripped : List Nat) (h : x ∈ st.segments) :
    x ∈ (processTail st raw stripped).segments := by
  unfold processTail
  dsimp only
  split_ifs <;>
    first
    | exact h
    | exact mem_flushBuffer st h
    | exact mem_processTail2 st raw stripped h

theorem mem_processLineG (hl : List Nat → Bool) (hdr : Bool) {x : List Nat}
    (st : ReflowState) (raw : List Nat) (h : x ∈ st.segments) :
    x ∈ (processLineG hl hdr st raw).segments := by
  unfold processLineG
  dsimp only
  cases hlast : (RStrip st.buffer).getLast? with
  | none =>
    split_ifs <;> (try dsimp only) <;>
      first
      | exact h
      | exact mem_flushBuffer st h
      | exact List.mem_append_left _ h
      | exact List.mem_append_left _ (mem_flushBuffer st h)
      | exact mem_processTail st raw _ h
      | exact mem_flushBuffer _ (List.mem_append_left _ (mem_flushBuffer st h))
  | some last =>
    split_ifs <;> (try dsimp only) <;>
      first
      | exact h
      | exact mem_flushBuffer st h
      | exact List.mem_append_left _ h
      | exact List.mem_append_left _ (mem_flushBuffer st h)
      | exact mem_processTail st raw _ h
      | exact mem_flushBuffer _ (List.mem_append_left _ (mem_flushBuffer st h))
      | (split_ifs <;>
          first
          | exact mem_processTail st raw _ h
          | exact List.mem_append_left _ (mem_flushBuffer st h))

theorem mem_foldl_processLineG (hl : List Nat → Bool) (hdr : Bool) {x : List Nat} :
    ∀ (ls : List (List Nat)) (st : ReflowState), x ∈ st.segments →
      x ∈ (ls.foldl (processLineG hl hdr) st).segments := by
  intro ls
  induction ls with
  | nil => intro st h; exact h
  | cons l rest ih =>
    intro st h
    rw [List.foldl_cons]
    exact ih _ (mem_processLineG hl hdr st l h)

theorem processLineG_pagemarker (hl : List Nat → Bool) (hdr : Bool)
    (st : ReflowState) :
    (processLineG hl hdr st ("=== [Page 1/3] ===".cps)).segments
      = (flushBuffer st).segments ++ ["=== [Page 1/3] ===".cps] := by
  simp only [processLineG,
    (by decide : CollapseRepeatedSegments (RStrip ("=== [Page 1/3] ===".cps))
      = "=== [Page 1/3] ===".cps),
    (by decide : ("=== [Page 1/3] ===".cps).isEmpty = false),
    (by decide : IsBoxDrawingLine (LStrip ("=== [Page 1/3] ===".cps)) = false),
    (by decide : IsPageMarker ("=== [Page 1/3] ===".cps) = true),
    Bool.false_eq_true, Bool.true_eq_false, if_false, if_true, ite_true, ite_false]

/-- C6: a line that is exactly `=== [Page 1/3] ===` always ends up as
its own element of the emitted segment list, for every surrounding line
list and both settings of the page-header flag: the marker is never
concatenated with neighbouring text (the `compact` flag only changes the
separator used when the segments are joined). -/
theorem C6_page_marker_own_segment (lines : List (List Nat)) (hdr : Bool)
    (hmem : "=== [Page 1/3] ===".cps ∈ lines) :
    "=== [Page 1/3] ===".cps ∈ reflowLines hdr lines := by
  have key : ∀ (ls : List (List Nat)) (st : ReflowState),
      "=== [Page 1/3] ===".cps ∈ ls →
      "=== [Page 1/3] ===".cps ∈
        (ls.foldl (processLineG IsHeadingLike hdr) st).segments := by
    intro ls
    induction ls with
    | nil => intro st h; cases h
    | cons l rest ih =>
      intro st h
      rcases List.mem_cons.mp h with heq | hmem2
      · rw [List.foldl_cons, ← heq]
        apply mem_foldl_processLineG
        rw [processLineG_pagemarker]
        exact List.mem_append_right _ (List.mem_singleton_self _)
      · rw [List.foldl_cons]
        exact ih _ hmem2
  have hm := key lines ⟨[], [], DialogState.init⟩ hmem
  unfold reflowLines reflowLinesG
  dsimp only
  split_ifs
  · exact hm
  · exact List.mem_append_left _ hm

/-- Witness for C6: the marker alone reflows to a segment list
containing the marker. -/
theorem C6_witness :
    "=== [Page 1/3] ===".cps ∈ reflowLines true ["=== [Page 1/3] ===".cps] :=
  C6_page_marker_own_segment ["=== [Page 1/3] ===".cps] true
    (List.mem_singleton_self _)

/-! ## C9 -/

/-- C9 is false on the code: the two copies of `ReflowCjkParagraphs` are
not behaviourally identical.  On the prose line 今天天气真是好极啦
followed by `<中文中文`, the ReflowHelper.hpp copy merges the two lines
(its `IsHeadingLike` rejects the second line because `<` is in its
bracket-pair table), while the PdfiumHelper.hpp copy treats the second
line as a weak heading and splits (its `OPEN_BRACKETS` table lacks `<`). -/
theorem C9_counterexample :
    ReflowCjkParagraphs
        (U32ToUtf8 "今天天气真是好极啦".cps ++ 10 :: U32ToUtf8 "<中文中文".cps)
        false false ≠
      ReflowCjkParagraphsP
        (U32ToUtf8 "今天天气真是好极啦".cps ++ 10 :: U32ToUtf8 "<中文中文".cps)
        false false := by
  decide

theorem processLineG_congr (hl1 hl2 : List Nat → Bool) (hdr : Bool)
    (st : ReflowState) (raw : List Nat)
    (h : hl1 (CollapseRepeatedSegments (RStrip raw)) =
         hl2 (CollapseRepeatedSegments (RStrip raw))) :
    processLineG hl1 hdr st raw = processLineG hl2 hdr st raw := by
  unfold processLineG
  dsimp only
  rw [h]

theorem foldl_processLineG_congr (hl1 hl2 : List Nat → Bool) (hdr : Bool) :
    ∀ (ls : List (List Nat)) (st : ReflowState),
      (∀ raw ∈ ls, hl1 (CollapseRepeatedSegments (RStrip raw)) =
        hl2 (CollapseRepeatedSegments (RStrip raw))) →
      ls.foldl (processLineG hl1 hdr) st = ls.foldl (processLineG hl2 hdr) st := by
  intro ls
  induction ls with
  | nil => intro st _; rfl
  | cons l rest ih =>
    intro st h
    rw [List.foldl_cons, List.foldl_cons,
      processLineG_congr hl1 hl2 hdr st l (h l (List.mem_cons_self l rest))]
    exact ih _ (fun raw hr => h raw (List.mem_cons_of_mem l hr))

/-- C9 amended: the two reflow copies share every helper verbatim except
the weak-heading predicate (`IsHeadingLike` together with its
`HasOpenBracketNoClose`, which differ between the two files), so the two
functions agree on every input on which the two heading predicates agree
on all processed lines — but, as the counterexample shows, they disagree
on inputs where a line is heading-like for exactly one of them. -/
theorem C9_amended_heading_agreement (utf8Text : List Nat) (hdr compact : Bool)
    (h : ∀ raw ∈ (splitLinesBytes (normalizeNewlines utf8Text)).map Utf8ToU32,
      IsHeadingLike (CollapseRepeatedSegments (RStrip raw)) =
      IsHeadingLikeP (CollapseRepeatedSegments (RStrip raw))) :
    ReflowCjkParagraphs utf8Text hdr compact =
      ReflowCjkParagraphsP utf8Text hdr compact := by
  unfold ReflowCjkParagraphs ReflowCjkParagraphsP ReflowCjkParagraphsG
  dsimp only
  split_ifs with hsp
  · rfl
  · unfold reflowLinesG
    rw [foldl_processLineG_congr IsHeadingLike IsHeadingLikeP hdr
      ((splitLinesBytes (normalizeNewlines utf8Text)).map Utf8ToU32)
      ⟨[], [], DialogState.init⟩ h]

/-- Witness for the amended C9: on `你好。\n再见` the two heading
predicates agree on both lines, and the two implementations produce the
same output. -/
theorem C9_amended_witness :
    ReflowCjkParagraphs (U32ToUtf8 "你好。".cps ++ 10 :: U32ToUtf8 "再见".cps)
        false false =
      ReflowCjkParagraphsP (U32ToUtf8 "你好。".cps ++ 10 :: U32ToUtf8 "再见".cps)
        false false :=
  C9_amended_heading_agreement
    (U32ToUtf8 "你好。".cps ++ 10 :: U32ToUtf8 "再见".cps) false false (by decide)

/-! ## C10 -/

theorem splitTokensAux_ne_nil :
    ∀ (l cur : List Nat),
      (l.any (fun c => !(c == 32) && !(c == 9)) = true ∨ cur ≠ []) →
      splitTokensAux l cur ≠ [] := by
  intro l
  induction l with
  | nil =>
    intro cur h
    rcases h with h | h
    · simp at h
    · unfold splitTokensAux
      rw [if_neg (by simp [List.isEmpty_iff, h])]
      exact List.cons_ne_nil _ _
  | cons c rest ih =>
    intro cur h
    unfold splitTokensAux
    split_ifs with hsp hcur
    · refine ih [] (Or.inl ?_)
      rcases h with h | h
      · simp only [List.any_cons, Bool.or_eq_true] at h
        rcases h with h | h
        · rcases (by simpa using hsp : (c == 32) = true ∨ (c == 9) = true) with h32 | h9
          · rw [h32] at h; simp at h
          · rw [h9] at h; simp at h
        · exact h
      · exact absurd (List.isEmpty_iff.mp hcur) h
    · exact List.cons_ne_nil _ _
    · exact ih (c :: cur) (Or.inr (List.cons_ne_nil _ _))

theorem splitTokensAux_tokens :
    ∀ (l cur : List Nat),
      cur.all (fun c => !(c == 32) && !(c == 9)) = true →
      ∀ t ∈ splitTokensAux l cur,
        t ≠ [] ∧ t.all (fun c => !(c == 32) && !(c == 9)) = true := by
  intro l
  induction l with
  | nil =>
    intro cur hcur t ht
    unfold splitTokensAux at ht
    split_ifs at ht with hemp
    · cases ht
    · rcases List.mem_singleton.mp ht with rfl
      refine ⟨?_, by rw [List.all_reverse]; exact hcur⟩
      intro hrev
      have : cur = [] := by
        have := congrArg List.reverse hrev
        simpa using this
      exact absurd (List.isEmpty_iff.mpr this) (by simp_all)
  | cons c rest ih =>
    intro cur hcur t ht
    unfold splitTokensAux at ht
    split_ifs at ht with hsp hcur2
    · exact ih [] rfl t ht
    · rcases List.mem_cons.mp ht with rfl | ht2
      · refine ⟨?_, by rw [List.all_reverse]; exact hcur⟩
        intro hrev
        have : cur = [] := by
          have := congrArg List.reverse hrev
          simpa using this
        exact absurd (List.isEmpty_iff.mpr this) (by simp_all)
      · exact ih [] rfl t ht2
    · refine ih (c :: cur) ?_ t ht
      simp only [List.all_cons, Bool.and_eq_true]
      refine ⟨?_, hcur⟩
      simp only [Bool.or_eq_true] at hsp
      push_neg at hsp
      simp [hsp.1, hsp.2]

theorem mem_of_mem_collapseWords {parts : List (List Nat)} {t : List Nat}
    (h : t ∈ CollapseRepeatedWordSequences parts) : t ∈ parts := by
  unfold CollapseRepeatedWordSequences at h
  split_ifs at h
  · exact h
  · cases hf : findCollapse parts with
    | none => rw [hf] at h; exact h
    | some trip =>
      obtain ⟨start, plen, count⟩ := trip
      rw [hf] at h
      dsimp only at h
      rcases List.mem_append.mp h with h1 | h2
      · rcases List.mem_append.mp h1 with h3 | h4
        · exact List.mem_of_mem_take h3
        · exact List.mem_of_mem_drop (List.mem_of_mem_take h4)
      · exact List.mem_of_mem_drop h2

theorem findCollapse_some_bounds {parts : List (List Nat)}
    {start plen count : Nat}
    (h : findCollapse parts = some (start, plen, count)) :
    1 ≤ plen ∧ start + plen ≤ parts.length := by
  unfold findCollapse at h
  obtain ⟨s0, _, hs0⟩ := List.exists_of_findSome?_eq_some h
  obtain ⟨p0, hp0mem, hp0⟩ := List.exists_of_findSome?_eq_some hs0
  simp only [List.mem_map, List.mem_range] at hp0mem
  obtain ⟨k, _, rfl⟩ := hp0mem
  split_ifs at hp0 with hle
  · dsimp only at hp0
    split_ifs at hp0 with h3
    simp only [Option.some.injEq, Prod.mk.injEq] at hp0
    obtain ⟨rfl, rfl, rfl⟩ := hp0
    simp only [decide_eq_true_eq] at hle
    exact ⟨by omega, hle⟩

theorem collapseWords_ne_nil {parts : List (List Nat)} (h : parts ≠ []) :
    CollapseRepeatedWordSequences parts ≠ [] := by
  unfold CollapseRepeatedWordSequences
  split_ifs
  · exact h
  · cases hf : findCollapse parts with
    | none => exact h
    | some trip =>
      obtain ⟨start, plen, count⟩ := trip
      obtain ⟨hp1, hple⟩ := findCollapse_some_bounds hf
      dsimp only
      intro hnil
      rcases List.append_eq_nil.mp hnil with ⟨h1, h2⟩
      rcases List.append_eq_nil.mp h1 with ⟨h3, h4⟩
      have : ((parts.drop start).take plen).length = 0 := by rw [h4]; rfl
      rw [List.length_take, List.length_drop] at this
      omega

theorem collapseToken_props {t : List Nat} {p : Nat → Bool}
    (hne : t ≠ []) (hall : t.all p = true) :
    CollapseRepeatedToken t ≠ [] ∧ (CollapseRepeatedToken t).all p = true := by
  unfold CollapseRepeatedToken
  split_ifs with hlen
  · exact ⟨hne, hall⟩
  · cases hfind : ((List.range 7).map fun k => k + 4).find?
        (fun u => decide (u ≤ t.length / 3) && tokenIsRepeatOf t u) with
    | none => exact ⟨hne, hall⟩
    | some u =>
      dsimp only
      have hu : u ∈ (List.range 7).map (fun k => k + 4) :=
        List.mem_of_find?_eq_some hfind
      have hu4 : 4 ≤ u := by
        simp only [List.mem_map, List.mem_range] at hu
        obtain ⟨k, _, rfl⟩ := hu; omega
      have hlen4 : 4 ≤ t.length := by
        simp only [Bool.or_eq_true, decide_eq_true_eq, not_or] at hlen
        omega
      constructor
      · intro hcontra
        have hzero : (t.take u).length = 0 := by rw [hcontra]; rfl
        rw [List.length_take] at hzero
        omega
      · rw [List.all_eq_true] at hall ⊢
        intro a ha
        exact hall a (List.mem_of_mem_take ha)

/-- C10: for every line containing a character other than space and tab,
`CollapseRepeatedSegments` returns the line's space/tab-separated tokens
— after phrase-level and token-level collapse — joined by exactly one
ASCII space; the token list is non-empty and each token is non-empty and
free of spaces and tabs, so leading/trailing space runs disappear and
interior runs become single spaces even on lines with no repetition, as
the concrete conjunct shows. -/
theorem C10_collapse_normalizes (line : List Nat)
    (h : line.any (fun c => !(c == 32) && !(c == 9)) = true) :
    (CollapseRepeatedSegments line =
      joinWithSpace ((CollapseRepeatedWordSequences (splitTokens line)).map
        CollapseRepeatedToken)) ∧
    ((CollapseRepeatedWordSequences (splitTokens line)).map
      CollapseRepeatedToken ≠ []) ∧
    (∀ t ∈ (CollapseRepeatedWordSequences (splitTokens line)).map
        CollapseRepeatedToken,
      t ≠ [] ∧ t.all (fun c => !(c == 32) && !(c == 9)) = true) ∧
    CollapseRepeatedSegments " a\t\tb  c ".cps = "a b c".cps := by
  have hparts : splitTokens line ≠ [] :=
    splitTokensAux_ne_nil line [] (Or.inl h)
  have hline : line ≠ [] := by
    rintro rfl
    simp at h
  refine ⟨?_, ?_, ?_, by decide⟩
  · unfold CollapseRepeatedSegments
    dsimp only
    rw [if_neg (by simp [List.isEmpty_iff, hline]),
      if_neg (by simp [List.isEmpty_iff, hparts])]
  · intro hnil
    exact collapseWords_ne_nil hparts (List.map_eq_nil_iff.mp hnil)
  · intro t ht
    obtain ⟨t0, ht0, rfl⟩ := List.mem_map.mp ht
    have ht0parts : t0 ∈ splitTokens line := mem_of_mem_collapseWords ht0
    obtain ⟨hne, hall⟩ := splitTokensAux_tokens line [] rfl t0 ht0parts
    exact collapseToken_props hne hall

/-- Witness for C10: a line with irregular spacing and no repetition is
normalized to single spaces. -/
theorem C10_witness :
    CollapseRepeatedSegments "  hi   there ".cps =
      joinWithSpace ((CollapseRepeatedWordSequences
        (splitTokens "  hi   there ".cps)).map CollapseRepeatedToken) ∧
    CollapseRepeatedSegments " a\t\tb  c ".cps = "a b c".cps :=
  ⟨(C10_collapse_normalizes "  hi   there ".cps (by decide)).1,
   (C10_collapse_normalizes "  hi   there ".cps (by decide)).2.2.2⟩

end ZhoReflow
